import Mathlib

/-!
Verification of the data-quality dashboard's filter/aggregation core
(`src/app.py`) against its specification.

The dataset is a polars DataFrame whose six columns are nullable text
columns; we model one row (`CheckRecord`) with `Option String` attributes,
where `none` stands for a SQL/polars null (an absent attribute).  A null
attribute compared with `==` in polars yields null, and `filter` drops
null-masked rows, so in the model a `none` attribute simply fails the
Boolean equality test — the same observable behaviour.

Polars' `group_by` and `unique` enumerate distinct keys in unspecified
order; the model enumerates them with `List.dedup`.  All properties proved
about grouped or distinct values are independent of that enumeration order
(set membership, key nodup, per-key counts, sortedness by count).
-/

namespace DataQuality

/-- Lowercasing of a selection string, as Python's `str.lower()` is used in
`get_filtered_data` for the case-insensitive wildcard test.  It maps
`Char.toLower` over the characters; this agrees with `String.toLower` but is
stated over the character list so that it reduces on concrete literals. -/
def strLower (s : String) : String := ⟨s.data.map Char.toLower⟩

/-- One row of the data-quality check log table (section 3 of the spec,
columns fetched by `fetch_data_from_postgres` in `src/app.py`).  Every
attribute is a nullable text value. -/
structure CheckRecord where
  data_source : Option String
  table_name : Option String
  check_name : Option String
  column_name : Option String
  outcome : Option String
  timestamp : Option String
deriving DecidableEq

/-- A dataset is an ordered sequence of check records. -/
abbrev Dataset := List CheckRecord

/-- Shallow embedding of `get_filtered_data` (src/app.py, lines 52-83).
For each of the four selection strings whose lowercasing differs from
`"all"`, an equality predicate on the corresponding column is appended to
`filters`; if `filters` is empty the frame is returned unchanged, else the
masks are AND-combined and the frame is filtered. -/
def get_filtered_data (df : Dataset)
    (data_source table_name outcome timestamp : String) : Dataset :=
  let filters : List (CheckRecord → Bool) :=
    (if strLower data_source ≠ "all"
      then [fun r => r.data_source == some data_source] else []) ++
    (if strLower table_name ≠ "all"
      then [fun r => r.table_name == some table_name] else []) ++
    (if strLower outcome ≠ "all"
      then [fun r => r.outcome == some outcome] else []) ++
    (if strLower timestamp ≠ "all"
      then [fun r => r.timestamp == some timestamp] else [])
  if filters.isEmpty then df
  else df.filter (fun r => filters.all (fun p => p r))

/-- The records of a dataset whose `outcome` is exactly `"fail"`; the
failing-record selection `df.filter(pl.col("outcome") == "fail")` used by
`get_summary_data` and `get_failures_by_table`. -/
def failedRecords (df : Dataset) : Dataset :=
  df.filter (fun r => r.outcome == some "fail")

/-- The dictionary returned by `get_summary_data`: the three metric-card
values keyed "Total Checks", "Total Failed" and "Failure Rate". -/
structure SummaryData where
  totalChecks : Nat
  totalFailed : Nat
  failureRate : String
deriving DecidableEq

/-- Round-half-even of the fraction `n / d` (for `d > 0`) to the nearest
integer: the rounding used both by IEEE-754 binary64 arithmetic and by the
correctly rounded decimal formatting of a double. -/
def roundHalfEvenNat (n d : Nat) : Nat :=
  let q := n / d
  let r := n % d
  if 2 * r < d then q
  else if d < 2 * r then q + 1
  else if q % 2 = 0 then q else q + 1

/-- Fuel-bounded base-2 logarithm (floor) of a natural number, written with
structural recursion on the fuel so that it evaluates by kernel reduction;
`fuel ≥ n` makes the fuel never run out. -/
def log2fuel : Nat → Nat → Nat
  | 0, _ => 0
  | fuel + 1, n => if n ≤ 1 then 0 else log2fuel fuel (n / 2) + 1

/-- Floor of the base-2 logarithm of the positive fraction `a / b`: the
binade exponent `e` with `2 ^ e ≤ a / b < 2 ^ (e + 1)`.  For `a ≥ b` this
is the bit length of the integer quotient; for `a < b` it is `-k` where
`k` is the least exponent with `2 ^ k ≥ b / a`, obtained from the ceiling
`c` of `b / a` as `log2 (c - 1) + 1`. -/
def floorLog2Frac (a b : Nat) : Int :=
  if b ≤ a then (log2fuel a (a / b) : Int)
  else
    let c := (b + a - 1) / a
    Int.neg ((log2fuel c (c - 1) + 1 : Nat) : Int)

/-- Round the exact fraction `n / d` (with `d > 0`) to the nearest IEEE-754
binary64 value, ties to even: the double grid in the binade of exponent `e`
has spacing `2 ^ (e - 52)`, except below `2 ^ (-1022)` where the subnormal
spacing `2 ^ (-1074)` applies.  The result is returned as an exact fraction
(numerator, power-of-two denominator); only nonnegative values occur here,
and the cases used stay far from overflow. -/
def flFrac (n d : Nat) : Nat × Nat :=
  if n = 0 then (0, 1)
  else
    let e := floorLog2Frac n d
    let t : Int := if e < -1022 then 1074 else 52 - e
    if 0 ≤ t then (roundHalfEvenNat (n * 2 ^ t.toNat) d, 2 ^ t.toNat)
    else (roundHalfEvenNat n (d * 2 ^ (-t).toNat) * 2 ^ (-t).toNat, 1)

/-- The exact value of the double computed by the Python expression
`total_failed / total_checks * 100`: the true-division `failed / total` is
rounded to binary64, the product with 100 (exact as a fraction) is rounded
to binary64 again. -/
def pyRateFrac (failed total : Nat) : Nat × Nat :=
  let q1 := flFrac failed total
  flFrac (q1.1 * 100) q1.2

/-- The failure rate in tenths of a percent as printed by `:.1f`: CPython
formats the exact decimal value of the computed double with correct
rounding, ties to even, so the printed tenths are the half-even rounding
of ten times the exact value of `pyRateFrac`. -/
def rateTenths (failed total : Nat) : Nat :=
  let p := pyRateFrac failed total
  roundHalfEvenNat (p.1 * 10) p.2

/-- Renders a number of tenths as a decimal numeral with one fractional
digit, as Python's `:.1f` format does for the (at most four-digit) rates
produced here. -/
def fmtTenths (t : Nat) : String :=
  toString (t / 10) ++ "." ++ toString (t % 10)

/-- Shallow embedding of `get_summary_data` (src/app.py, lines 86-97):
total count, count of records whose `outcome` equals `"fail"`, and the
failure rate formatted to one decimal place with a trailing `%`, guarded to
the literal `"0.0%"` when the total is zero. -/
def get_summary_data (df : Dataset) : SummaryData :=
  let total_checks := df.length
  let total_failed := (df.filter (fun r => r.outcome == some "fail")).length
  let failure_rate :=
    if total_checks > 0 then fmtTenths (rateTenths total_failed total_checks) ++ "%"
    else "0.0%"
  ⟨total_checks, total_failed, failure_rate⟩

/-- Descending-by-count comparison on (key, count) pairs: the sort key of
`.sort("Failures", descending=True)` in `get_failures_by_table`. -/
def descByCount (a b : Option String × Nat) : Prop := b.2 ≤ a.2

instance : DecidableRel descByCount :=
  fun a b => inferInstanceAs (Decidable (b.2 ≤ a.2))

instance : IsTotal (Option String × Nat) descByCount :=
  ⟨fun a b => Nat.le_total b.2 a.2⟩

instance : IsTrans (Option String × Nat) descByCount :=
  ⟨fun _ _ _ hab hbc => Nat.le_trans hbc hab⟩

/-- One (key, size) pair per distinct `table_name` of the given (already
outcome-filtered) records: the model of
`group_by("table_name").agg(pl.len().alias("Failures"))`.  Polars emits the
groups in unspecified order; `List.dedup` enumerates the distinct keys. -/
def groupCounts (failed : Dataset) : List (Option String × Nat) :=
  (failed.map (fun r => r.table_name)).dedup.map
    (fun k => (k, (failed.filter (fun r => r.table_name == k)).length))

/-- Shallow embedding of `get_failures_by_table` (src/app.py, lines
100-108): keep the `outcome == "fail"` records, count them per distinct
`table_name`, and sort the pairs descending by count.  The final `rename`
only relabels the key column "table_name" to "Table" and carries no data
content, so it is not modelled. -/
def get_failures_by_table (table : Dataset) : List (Option String × Nat) :=
  List.insertionSort descByCount
    (groupCounts (table.filter (fun r => r.outcome == some "fail")))

/-- Shallow embedding of `extract_unique_parameter` (src/app.py, lines
45-49): the distinct values of one column (polars `unique()`, enumerated
here by `List.dedup`), with `"all"` prepended exactly when it is not
already among them.  The membership test `"all" not in parameter` is an
exact, case-sensitive comparison. -/
def extract_unique_parameter (df : Dataset) (column : CheckRecord → Option String) :
    List (Option String) :=
  let parameter := (df.map column).dedup
  if some "all" ∈ parameter then parameter else some "all" :: parameter

/-- The mock table hard-coded at src/app.py lines 127-130 under the name
`failures_by_check`. -/
def failures_by_check : List (String × Nat) :=
  [("Null Check", 50), ("Range Check", 40), ("Format Check", 33)]

/-- The mock table hard-coded at src/app.py lines 132-135 under the name
`trend_data`: 21 consecutive days from 2024-04-01 paired with fabricated
failed-check counts. -/
def trend_data : List (String × Nat) :=
  [("2024-04-01", 25), ("2024-04-02", 27), ("2024-04-03", 30),
   ("2024-04-04", 32), ("2024-04-05", 35), ("2024-04-06", 28),
   ("2024-04-07", 20), ("2024-04-08", 22), ("2024-04-09", 25),
   ("2024-04-10", 33), ("2024-04-11", 36), ("2024-04-12", 40),
   ("2024-04-13", 38), ("2024-04-14", 29), ("2024-04-15", 22),
   ("2024-04-16", 24), ("2024-04-17", 28), ("2024-04-18", 35),
   ("2024-04-19", 30), ("2024-04-20", 33), ("2024-04-21", 29)]

/-- The data series behind the "Failures by Check Type" chart (`fig_check`,
src/app.py lines 196-199), as a function of the session's filtered dataset:
the chart is drawn from the hard-coded `failures_by_check` table and
ignores the dataset entirely. -/
def failuresByCheckView (_df : Dataset) : List (String × Nat) :=
  failures_by_check

/-- The data series behind the "Failure Trend Over Time" chart
(`fig_trend`, src/app.py lines 201-203), as a function of the session's
filtered dataset: the chart is drawn from the hard-coded `trend_data` table
and ignores the dataset entirely. -/
def failureTrendView (_df : Dataset) : List (String × Nat) :=
  trend_data

/-- A sample record used by concrete witnesses. -/
def rec1 : CheckRecord :=
  ⟨some "db1", some "orders", some "Null Check", some "id",
   some "fail", some "2024-04-21 12:30"⟩

/-- A second sample record used by concrete witnesses. -/
def rec2 : CheckRecord :=
  ⟨some "db2", some "users", some "Range Check", some "age",
   some "pass", some "2024-04-20 09:00"⟩

/-- A small sample dataset used by concrete witnesses. -/
def dSample : Dataset := [rec1, rec2]

/-- A record all of whose attributes are absent (null in every column). -/
def recNull : CheckRecord := ⟨none, none, none, none, none, none⟩

/-- A record with the given outcome, for building summary test datasets. -/
def mkOutcomeRec (oc : String) : CheckRecord :=
  ⟨some "db1", some "orders", some "Null Check", some "id",
   some oc, some "2024-04-21 12:30"⟩

/-- Ten records, three of them failing: scenario 2 of the spec. -/
def dTen : Dataset :=
  List.replicate 3 (mkOutcomeRec "fail") ++ List.replicate 7 (mkOutcomeRec "pass")

/-- A one-record dataset whose single failing check is a "Null Check". -/
def dCheckA : Dataset :=
  [⟨some "db1", some "orders", some "Null Check", some "id",
    some "fail", some "2024-05-01 00:00"⟩]

/-- A one-record dataset whose single failing check is a "Volume Check". -/
def dCheckB : Dataset :=
  [⟨some "db1", some "orders", some "Volume Check", some "id",
    some "fail", some "2024-05-01 00:00"⟩]

/-- A one-record dataset with a single failure stamped 2099-01-01. -/
def dTrendA : Dataset :=
  [⟨some "db1", some "orders", some "Null Check", some "id",
    some "fail", some "2099-01-01 00:00"⟩]

/-- A one-record dataset with a single failure stamped 2099-12-31. -/
def dTrendB : Dataset :=
  [⟨some "db1", some "orders", some "Null Check", some "id",
    some "fail", some "2099-12-31 00:00"⟩]

/-- A record is kept by `get_filtered_data` iff it is in the input and, for
each selection that does not lowercase to the wildcard, its attribute
equals the selected value. -/
theorem mem_get_filtered_data (df : Dataset)
    (data_source table_name outcome timestamp : String) (r : CheckRecord) :
    r ∈ get_filtered_data df data_source table_name outcome timestamp ↔
      r ∈ df ∧
      (strLower data_source ≠ "all" → r.data_source = some data_source) ∧
      (strLower table_name ≠ "all" → r.table_name = some table_name) ∧
      (strLower outcome ≠ "all" → r.outcome = some outcome) ∧
      (strLower timestamp ≠ "all" → r.timestamp = some timestamp) := by
  simp only [get_filtered_data]
  by_cases h1 : strLower data_source ≠ "all" <;>
  by_cases h2 : strLower table_name ≠ "all" <;>
  by_cases h3 : strLower outcome ≠ "all" <;>
  by_cases h4 : strLower timestamp ≠ "all" <;>
    simp [h1, h2, h3, h4, List.mem_filter, and_assoc]

/-- When every selection lowercases to the wildcard sentinel, no filter is
built and the dataset is returned unchanged. -/
theorem get_filtered_data_all_wildcards (df : Dataset)
    (data_source table_name outcome timestamp : String)
    (h1 : strLower data_source = "all") (h2 : strLower table_name = "all")
    (h3 : strLower outcome = "all") (h4 : strLower timestamp = "all") :
    get_filtered_data df data_source table_name outcome timestamp = df := by
  simp [get_filtered_data, h1, h2, h3, h4]

/-- The keys of the grouped pairs are exactly the deduplicated key column. -/
theorem groupCounts_map_fst (failed : Dataset) :
    (groupCounts failed).map Prod.fst =
      (failed.map (fun r => r.table_name)).dedup := by
  simp only [groupCounts, List.map_map]
  exact List.map_id _

/-- Each grouped pair carries the size of its own group. -/
theorem groupCounts_snd (failed : Dataset) (p : Option String × Nat)
    (hp : p ∈ groupCounts failed) :
    p.2 = (failed.filter (fun r => r.table_name == p.1)).length := by
  simp only [groupCounts, List.mem_map] at hp
  obtain ⟨k, -, rfl⟩ := hp
  rfl

/-- In a duplicate-free list, a member occurs exactly once. -/
theorem count_eq_one_of_nodup_mem {α : Type} [BEq α] [LawfulBEq α]
    {l : List α} {a : α} (hn : l.Nodup) (ha : a ∈ l) : l.count a = 1 := by
  induction l with
  | nil => cases ha
  | cons b l ih =>
    obtain ⟨hb, hl⟩ := List.nodup_cons.mp hn
    rcases List.mem_cons.mp ha with rfl | ha2
    · rw [List.count_cons_self, List.count_eq_zero.mpr hb]
    · by_cases hab : a = b
      · exact absurd (hab ▸ ha2) hb
      · rw [List.count_cons_of_ne hab]
        exact ih hl ha2

/-- C1: a record is in the result of `get_filtered_data` iff it is in the
input dataset and it satisfies every active predicate (for each field whose
selection does not lowercase to `"all"`, the record's attribute equals the
selected value, case-sensitively); consequently every record of the input
that is dropped fails at least one active predicate. -/
theorem c1_filter_membership (df : Dataset)
    (data_source table_name outcome timestamp : String) (r : CheckRecord) :
    r ∈ get_filtered_data df data_source table_name outcome timestamp ↔
      r ∈ df ∧
      (strLower data_source ≠ "all" → r.data_source = some data_source) ∧
      (strLower table_name ≠ "all" → r.table_name = some table_name) ∧
      (strLower outcome ≠ "all" → r.outcome = some outcome) ∧
      (strLower timestamp ≠ "all" → r.timestamp = some timestamp) :=
  mem_get_filtered_data df data_source table_name outcome timestamp r

/-- Concrete instantiation of `c1_filter_membership`: filtering the sample
dataset on `table_name = "orders"`. -/
theorem c1_filter_membership_witness :
    rec1 ∈ get_filtered_data dSample "all" "orders" "all" "all" ↔
      rec1 ∈ dSample ∧
      (strLower "all" ≠ "all" → rec1.data_source = some "all") ∧
      (strLower "orders" ≠ "all" → rec1.table_name = some "orders") ∧
      (strLower "all" ≠ "all" → rec1.outcome = some "all") ∧
      (strLower "all" ≠ "all" → rec1.timestamp = some "all") :=
  c1_filter_membership dSample "all" "orders" "all" "all" rec1

/-- C5: when every one of the four selection fields lowercases to the
wildcard sentinel `"all"`, no predicate is active and `get_filtered_data`
returns the dataset unchanged. -/
theorem c5_all_wildcard_identity (df : Dataset)
    (data_source table_name outcome timestamp : String)
    (h1 : strLower data_source = "all") (h2 : strLower table_name = "all")
    (h3 : strLower outcome = "all") (h4 : strLower timestamp = "all") :
    get_filtered_data df data_source table_name outcome timestamp = df :=
  get_filtered_data_all_wildcards df data_source table_name outcome timestamp
    h1 h2 h3 h4

/-- Concrete instantiation of `c5_all_wildcard_identity` with mixed-case
wildcard spellings. -/
theorem c5_all_wildcard_identity_witness :
    get_filtered_data dSample "All" "ALL" "aLl" "all" = dSample :=
  c5_all_wildcard_identity dSample "All" "ALL" "aLl" "all"
    (by decide) (by decide) (by decide) (by decide)

/-- C2: the summary's total is the record count, its failed count is the
number of records whose outcome is exactly `"fail"` (case-sensitively), and
its rate is `failed / total * 100` evaluated in IEEE-754 binary64 exactly
as the source evaluates it (modelled bit-exactly by `rateTenths`: two
round-to-nearest-even roundings, then correctly rounded decimal output)
and formatted to one decimal place with a trailing `%`, guarded to the
literal `"0.0%"` when the total is zero (the embedding is a total
function, so no division error can occur). -/
theorem c2_summary_fields (df : Dataset) :
    (get_summary_data df).totalChecks = df.length ∧
    (get_summary_data df).totalFailed =
      df.countP (fun r => r.outcome == some "fail") ∧
    (get_summary_data df).failureRate =
      (if df.length = 0 then "0.0%"
       else fmtTenths (rateTenths (df.countP (fun r => r.outcome == some "fail"))
         df.length) ++ "%") := by
  refine ⟨rfl, ?_, ?_⟩
  · simp [get_summary_data, List.countP_eq_length_filter]
  · rcases Nat.eq_zero_or_pos df.length with h | h
    · simp [get_summary_data, h]
    · have h' : df.length ≠ 0 := Nat.pos_iff_ne_zero.mp h
      simp [get_summary_data, h, h', List.countP_eq_length_filter]

/-- Scenario 2 of the spec: ten records, three failing, give the summary
(10, 3, "30.0%"); instantiates `c2_summary_fields`. -/
theorem c2_summary_fields_witness :
    (get_summary_data dTen).totalChecks = 10 ∧
    (get_summary_data dTen).totalFailed = 3 ∧
    (get_summary_data dTen).failureRate = "30.0%" := by
  have h := c2_summary_fields dTen
  exact ⟨h.1.trans (by decide), h.2.1.trans (by decide), h.2.2.trans (by decide)⟩

/-- Validation of the binary64 rate model on inputs where the rounding
steps interact with the decimal formatting: each value proved here is the
tenths count CPython prints for the corresponding expression.  At 23/80
the computed double is 28.75 - 2^(-48), printed "28.7" (exact rational
arithmetic would print "28.8"); at 49/80 it is 61.25 + 2^(-47), printed
"61.3"; at 127/2000 it is 6.35 - 0.4 * 2^(-50), printed "6.3"; at 109/400
it is 27.25 + 2^(-48), printed "27.3"; 1/16 and 3/16 give the exact ties
6.25 and 18.75, resolved to even as "6.2" and "18.8"; 3/10 gives exactly
30.0. -/
theorem rateTenths_spot_checks :
    rateTenths 23 80 = 287 ∧ rateTenths 49 80 = 613 ∧
    rateTenths 127 2000 = 63 ∧ rateTenths 109 400 = 273 ∧
    rateTenths 1 16 = 62 ∧ rateTenths 3 16 = 188 ∧
    rateTenths 3 10 = 300 ∧ rateTenths 0 5 = 0 := by decide

/-- C6: the failures-by-table view has pairwise-distinct keys, its keys are
exactly the `table_name` values occurring among failing records, every
pair's count is the number of failing records with that `table_name`, and
the pairs are sorted descending by count. -/
theorem c6_failures_by_table_grouping (df : Dataset) :
    ((get_failures_by_table df).map Prod.fst).Nodup ∧
    (∀ k : Option String,
      k ∈ (get_failures_by_table df).map Prod.fst ↔
        k ∈ (failedRecords df).map (fun r => r.table_name)) ∧
    (∀ p : Option String × Nat, p ∈ get_failures_by_table df →
      p.2 = (failedRecords df).countP (fun r => r.table_name == p.1)) ∧
    List.Sorted descByCount (get_failures_by_table df) := by
  have hperm : List.Perm (get_failures_by_table df)
      (groupCounts (failedRecords df)) :=
    List.perm_insertionSort descByCount _
  have hmapperm := hperm.map Prod.fst
  refine ⟨?_, ?_, ?_, ?_⟩
  · exact hmapperm.nodup_iff.mpr
      (by rw [groupCounts_map_fst]; exact List.nodup_dedup _)
  · intro k
    rw [hmapperm.mem_iff, groupCounts_map_fst, List.mem_dedup]
  · intro p hp
    rw [List.countP_eq_length_filter]
    exact groupCounts_snd (failedRecords df) p (hperm.mem_iff.mp hp)
  · exact List.sorted_insertionSort descByCount _

/-- Concrete instantiation of `c6_failures_by_table_grouping` on the sample
dataset, whose single failing record sits in table "orders". -/
theorem c6_failures_by_table_grouping_witness :
    ((get_failures_by_table dSample).map Prod.fst).Nodup ∧
    ((some "orders", 1) : Option String × Nat).2 =
      (failedRecords dSample).countP
        (fun r => r.table_name == ((some "orders", 1) : Option String × Nat).1) ∧
    List.Sorted descByCount (get_failures_by_table dSample) :=
  ⟨(c6_failures_by_table_grouping dSample).1,
   (c6_failures_by_table_grouping dSample).2.2.1 (some "orders", 1) (by decide),
   (c6_failures_by_table_grouping dSample).2.2.2⟩

/-- C8: `get_filtered_data` is a total function (no predicate can raise),
and a record whose attribute for an active (non-wildcard) field is absent
is treated as non-matching for that predicate: it never appears in the
result. -/
theorem c8_missing_attribute_nonmatch (df : Dataset)
    (data_source table_name outcome timestamp : String) (r : CheckRecord) :
    (strLower data_source ≠ "all" → r.data_source = none →
      r ∉ get_filtered_data df data_source table_name outcome timestamp) ∧
    (strLower table_name ≠ "all" → r.table_name = none →
      r ∉ get_filtered_data df data_source table_name outcome timestamp) ∧
    (strLower outcome ≠ "all" → r.outcome = none →
      r ∉ get_filtered_data df data_source table_name outcome timestamp) ∧
    (strLower timestamp ≠ "all" → r.timestamp = none →
      r ∉ get_filtered_data df data_source table_name outcome timestamp) := by
  refine ⟨fun ha hn hmem => ?_, fun ha hn hmem => ?_,
    fun ha hn hmem => ?_, fun ha hn hmem => ?_⟩ <;>
    have h := (mem_get_filtered_data df data_source table_name outcome
      timestamp r).mp hmem
  · exact absurd (h.2.1 ha) (by simp [hn])
  · exact absurd (h.2.2.1 ha) (by simp [hn])
  · exact absurd (h.2.2.2.1 ha) (by simp [hn])
  · exact absurd (h.2.2.2.2 ha) (by simp [hn])

/-- Concrete instantiation of `c8_missing_attribute_nonmatch`: the all-null
record is excluded once any field is actively filtered. -/
theorem c8_missing_attribute_nonmatch_witness :
    recNull ∉ get_filtered_data [recNull] "db1" "all" "all" "all" :=
  (c8_missing_attribute_nonmatch [recNull] "db1" "all" "all" "all" recNull).1
    (by decide) rfl

/-- C10: a data value that lowercases to `"all"` is shadowed by the
wildcard: selecting it applies no predicate on its dimension, so the whole
dataset comes back when the other selections are wildcards; and
`extract_unique_parameter` offers no separate wildcard entry: the exact
string `"all"` occurs exactly once among the options, a value is an option
iff it is `"all"` or a data value, and `"all"` is prepended (made the head)
exactly when it is not already a data value. -/
theorem c10_wildcard_shadowing (df : Dataset)
    (column : CheckRecord → Option String) (s : String)
    (hs : strLower s = "all") :
    (extract_unique_parameter df column).count (some "all") = 1 ∧
    (∀ v : Option String, v ∈ extract_unique_parameter df column ↔
      v = some "all" ∨ v ∈ df.map column) ∧
    (some "all" ∉ df.map column →
      (extract_unique_parameter df column).head? = some (some "all")) ∧
    get_filtered_data df s "all" "all" "all" = df ∧
    get_filtered_data df "all" s "all" "all" = df ∧
    get_filtered_data df "all" "all" s "all" = df ∧
    get_filtered_data df "all" "all" "all" s = df := by
  have hall : strLower "all" = "all" := by decide
  refine ⟨?_, ?_, ?_,
    get_filtered_data_all_wildcards df s "all" "all" "all" hs hall hall hall,
    get_filtered_data_all_wildcards df "all" s "all" "all" hall hs hall hall,
    get_filtered_data_all_wildcards df "all" "all" s "all" hall hall hs hall,
    get_filtered_data_all_wildcards df "all" "all" "all" s hall hall hall hs⟩
  · by_cases h : some "all" ∈ (df.map column).dedup
    · simp only [extract_unique_parameter]
      rw [if_pos h]
      exact count_eq_one_of_nodup_mem (List.nodup_dedup _) h
    · simp only [extract_unique_parameter]
      rw [if_neg h, List.count_cons_self, List.count_eq_zero.mpr h]
  · intro v
    by_cases h : some "all" ∈ (df.map column).dedup
    · simp only [extract_unique_parameter]
      rw [if_pos h]
      constructor
      · intro hv
        exact Or.inr (List.mem_dedup.mp hv)
      · rintro (rfl | hv)
        · exact h
        · exact List.mem_dedup.mpr hv
    · simp only [extract_unique_parameter]
      rw [if_neg h]
      constructor
      · intro hv
        rcases List.mem_cons.mp hv with rfl | hv
        · exact Or.inl rfl
        · exact Or.inr (List.mem_dedup.mp hv)
      · rintro (rfl | hv)
        · exact List.mem_cons_self _ _
        · exact List.mem_cons_of_mem _ (List.mem_dedup.mpr hv)
  · intro hnot
    have h : some "all" ∉ (df.map column).dedup :=
      fun hc => hnot (List.mem_dedup.mp hc)
    simp only [extract_unique_parameter]
    rw [if_neg h]
    rfl

/-- Concrete instantiation of `c10_wildcard_shadowing`: on the sample
dataset, selecting the data-shaped value "All" filters nothing, and the
options list carries "all" exactly once. -/
theorem c10_wildcard_shadowing_witness :
    (extract_unique_parameter dSample (fun r => r.data_source)).count
      (some "all") = 1 ∧
    get_filtered_data dSample "All" "all" "all" "all" = dSample := by
  have h := c10_wildcard_shadowing dSample (fun r => r.data_source) "All"
    (by decide)
  exact ⟨h.1, h.2.2.2.1⟩

/-- C3 (code bug): the "Failures by Check Type" chart is not derived from
the dataset: two datasets with different failing check-name distributions
produce the identical view, namely the hard-coded mock `failures_by_check`
table. -/
theorem c3_check_view_ignores_data :
    failuresByCheckView dCheckA = failuresByCheckView dCheckB ∧
    (failedRecords dCheckA).map (fun r => r.check_name) ≠
      (failedRecords dCheckB).map (fun r => r.check_name) ∧
    failuresByCheckView dCheckA = failures_by_check :=
  ⟨rfl, by decide, rfl⟩

/-- C4 (code bug): the "Failure Trend Over Time" chart is not derived from
the dataset: two datasets with different failing-timestamp distributions
produce the identical view, namely the hard-coded mock `trend_data` table,
which does not even mention the failing timestamp of either dataset. -/
theorem c4_trend_view_ignores_data :
    failureTrendView dTrendA = failureTrendView dTrendB ∧
    (failedRecords dTrendA).map (fun r => r.timestamp) ≠
      (failedRecords dTrendB).map (fun r => r.timestamp) ∧
    ("2099-01-01 00:00", 1) ∉ failureTrendView dTrendA ∧
    failureTrendView dTrendA = trend_data :=
  ⟨rfl, by decide, by decide, rfl⟩

/-- C9 (code bug): on the empty dataset the genuinely derived view
`get_failures_by_table` is empty and the summary counts zero failures, but
the check-type and trend views displayed by the dashboard are the non-empty
hard-coded tables, whose counts sum to 123 and 621 instead of 0. -/
theorem c9_empty_dataset_grouped_views :
    get_failures_by_table ([] : Dataset) = [] ∧
    (get_summary_data ([] : Dataset)).totalFailed = 0 ∧
    failuresByCheckView ([] : Dataset) ≠ [] ∧
    ((failuresByCheckView ([] : Dataset)).map Prod.snd).sum = 123 ∧
    failureTrendView ([] : Dataset) ≠ [] ∧
    ((failureTrendView ([] : Dataset)).map Prod.snd).sum = 621 :=
  ⟨rfl, rfl, by decide, by decide, by decide, by decide⟩

end DataQuality
